import Mathlib

/-
Verification of the multi-chain momentum pipeline.

Shallow embedding of the five route handlers
(analyze-momentum, detect-momentum, get-cross-chain-prices,
create-momentum-strategy, execute-momentum-trade).
JavaScript numbers are modelled as rationals; a JavaScript field that may be
absent or explicitly null is modelled by the three-valued type JNum.
-/

namespace Momentum

/-- Value of a JavaScript numeric field as seen by the handlers: the field can
be absent (optional chaining yields undefined), explicitly null, or a number. -/
inductive JNum where
  | undef : JNum
  | null : JNum
  | num : ℚ → JNum
  deriving DecidableEq

/-- Semantics of the JavaScript idiom `x || 0`: undefined and null (and 0
itself) collapse to 0, a number is returned unchanged. -/
def JNum.orZero : JNum → ℚ
  | .num q => q
  | _ => 0

/-- A field carries an actual numeric datum. -/
def JNum.isNum : JNum → Bool
  | .num _ => true
  | _ => false

/-- JavaScript Math.round: round half toward positive infinity. -/
def jsRound (q : ℚ) : ℤ := ⌊q + 1 / 2⌋

/-- Trend ladder from analyze-momentum / detect-momentum (determineTrend). -/
def determineTrend (changePercent : ℚ) : String :=
  if changePercent > 15 then "very_bullish"
  else if changePercent > 8 then "strong_bullish"
  else if changePercent > 3 then "bullish"
  else if changePercent > -3 then "neutral"
  else if changePercent > -8 then "bearish"
  else if changePercent > -15 then "strong_bearish"
  else "very_bearish"

/-- Trend of a raw field value: determineTrend first returns "neutral" for a
null or undefined argument (detect-momentum passes the raw field through). -/
def determineTrendJ : JNum → String
  | .num q => determineTrend q
  | _ => "neutral"

/-- The market_data slice of the CoinGecko single-coin payload that
analyze-momentum reads (the premium ?.usd projections). -/
structure MarketData where
  change1h : JNum
  change24h : JNum
  change7d : JNum
  totalVolume : JNum
  marketCap : JNum
  deriving DecidableEq

/-- TimeframeData entry of the analyze-momentum response. -/
structure TimeframeData where
  change : ℚ
  volume : ℚ
  trend : String
  deriving DecidableEq

/-- Body of each timeframeAnalysis assignment: change and volume go through
the `|| 0` default, the trend ladder is applied to the defaulted change. -/
def mkTimeframeData (chg vol : JNum) : TimeframeData :=
  { change := chg.orZero, volume := vol.orZero, trend := determineTrend chg.orZero }

/-- The timeframeAnalysis object of analyze-momentum, as an association list
in insertion order.  Each of the three guarded assignments fires when the
timeframe was requested and the source field is not explicitly null
(the source guard is written with !== null, so an absent field passes it). -/
def buildTimeframeAnalysis (timeframes : List String) (md : MarketData) :
    List (String × TimeframeData) :=
  (if timeframes.contains "1h" ∧ md.change1h ≠ JNum.null then
    [("1h", mkTimeframeData md.change1h md.totalVolume)] else [])
  ++ (if timeframes.contains "24h" ∧ md.change24h ≠ JNum.null then
    [("24h", mkTimeframeData md.change24h md.totalVolume)] else [])
  ++ (if timeframes.contains "7d" ∧ md.change7d ≠ JNum.null then
    [("7d", mkTimeframeData md.change7d md.totalVolume)] else [])

/-- Per-timeframe contribution to the analyze-momentum score: capped price
change term plus capped volume term. -/
def timeframeScore (d : TimeframeData) : ℚ :=
  min (|d.change| * 10) 50 + min (d.volume / 1000000000 * 5) 25

/-- Aggregate analyze-momentum score: mean of the per-timeframe scores,
0 when no timeframe produced an entry. -/
def avgScore (timeframes : List String) (md : MarketData) : ℚ :=
  let scores := (buildTimeframeAnalysis timeframes md).map (fun p => timeframeScore p.2)
  if 0 < scores.length then scores.sum / scores.length else 0

/-- momentumScore field of the response: the aggregate rounded to one decimal. -/
def analyzeMomentumScore (timeframes : List String) (md : MarketData) : ℚ :=
  (jsRound (avgScore timeframes md * 10) : ℚ) / 10

/-- Status ladder over the aggregate score. -/
def momentumStatusOf (avg : ℚ) : String :=
  if avg > 60 then "very_strong"
  else if avg > 40 then "strong"
  else if avg > 20 then "building"
  else if avg < -20 then "fading"
  else "neutral"

/-- Recommendation ladder over the aggregate score (assigned together with
the status in the source). -/
def recommendationOf (avg : ℚ) : String :=
  if avg > 60 then "aggressive_buy"
  else if avg > 40 then "buy"
  else if avg > 20 then "cautious_buy"
  else if avg < -20 then "sell"
  else "hold"

/-- riskLevel ladder of the analyze-momentum response. -/
def analyzeRiskLevel (avg : ℚ) : String :=
  if avg > 50 then "high" else if avg > 30 then "medium" else "low"

/-- Semantics of the JavaScript String.toUpperCase over the symbols used here. -/
def jsToUpperCase (s : String) : String := ⟨s.data.map Char.toUpper⟩

/-- Semantics of the JavaScript String.toLowerCase. -/
def jsToLowerCase (s : String) : String := ⟨s.data.map Char.toLower⟩

/-! RSI calculation of analyze-momentum (calculateRSI). -/

/-- Consecutive deltas prices[i] - prices[i-1] of the loop in calculateRSI. -/
def jsDeltas (prices : List ℚ) : List ℚ :=
  (prices.zip prices.tail).map (fun p => p.2 - p.1)

/-- The gains series: positive deltas, 0 otherwise. -/
def gainsOf (prices : List ℚ) : List ℚ :=
  (jsDeltas prices).map (fun c => if 0 < c then c else 0)

/-- The losses series: absolute value of negative deltas, 0 otherwise. -/
def lossesOf (prices : List ℚ) : List ℚ :=
  (jsDeltas prices).map (fun c => if c < 0 then |c| else 0)

/-- avgGain of calculateRSI: sum of gains.slice(-14) divided by 14
(slice(-14) keeps the last up-to-14 elements, modelled by the drop). -/
def avgGainOf (prices : List ℚ) : ℚ :=
  ((gainsOf prices).drop ((gainsOf prices).length - 14)).sum / 14

/-- avgLoss of calculateRSI: sum of losses.slice(-14) divided by 14. -/
def avgLossOf (prices : List ℚ) : ℚ :=
  ((lossesOf prices).drop ((lossesOf prices).length - 14)).sum / 14

/-- calculateRSI of analyze-momentum: neutral 50 below 14 points, 100 at zero
average loss, otherwise the rounded classic RSI formula. -/
def calculateRSI (prices : List ℚ) : ℤ :=
  if prices.length < 14 then 50
  else if avgLossOf prices = 0 then 100
  else
    let rs := avgGainOf prices / avgLossOf prices
    jsRound (100 - 100 / (1 + rs))

/-! detect-momentum scan. -/

/-- One row of the CoinGecko markets payload as read by detect-momentum. -/
structure Coin where
  symbol : String
  name : String
  pct24h : JNum
  pct1hInCurrency : JNum
  pct24hInCurrency : JNum
  pct7dInCurrency : JNum
  currentPrice : ℚ
  totalVolume : JNum
  marketCap : JNum
  deriving DecidableEq

/-- The coin field selected by the timeframe (timeframeMappings with its
fallback to the 24h in-currency field for an unknown timeframe). -/
def selectedChange (timeframe : String) (c : Coin) : JNum :=
  if timeframe = "1h" then c.pct1hInCurrency
  else if timeframe = "24h" then c.pct24hInCurrency
  else if timeframe = "7d" then c.pct7dInCurrency
  else c.pct24hInCurrency

/-- The filter of detect-momentum: change !== null and |change| >= threshold.
An absent field gives NaN in Math.abs, and the NaN comparison is false, so
only an actual number can pass. -/
def passesThreshold (threshold : ℚ) (timeframe : String) (c : Coin) : Bool :=
  match selectedChange timeframe c with
  | .num q => decide (threshold ≤ |q|)
  | _ => false

/-- Static chain mapping of detect-momentum (getAvailableChains). -/
def getAvailableChains (symbol : String) : List String :=
  if symbol = "BTC" then
    ["Bitcoin", "Ethereum (wBTC)", "BSC (BTCB)", "Solana (Portal BTC)"]
  else if symbol = "ETH" then
    ["Ethereum", "BSC (ETH)", "Polygon (ETH)", "Arbitrum (ETH)", "Optimism (ETH)"]
  else if symbol = "SOL" then ["Solana", "Ethereum (Wrapped SOL)", "BSC (SOL)"]
  else if symbol = "MATIC" then ["Polygon", "Ethereum (MATIC)", "BSC (MATIC)"]
  else if symbol = "AVAX" then ["Avalanche", "Ethereum (AVAX)", "BSC (AVAX)"]
  else if symbol = "BNB" then ["BSC", "Ethereum (BNB)"]
  else if symbol = "ADA" then ["Cardano", "Ethereum (ADA)", "BSC (ADA)"]
  else if symbol = "DOT" then ["Polkadot", "Ethereum (DOT)", "BSC (DOT)"]
  else ["Ethereum", "BSC"]

/-- calculateMomentumScore of detect-momentum, rounded to one decimal
(Math.round(score * 10) / 10). -/
def calculateMomentumScore (c : Coin) : ℚ :=
  let change24h := c.pct24h.orZero
  let change1h := c.pct1hInCurrency.orZero
  let volume := c.totalVolume.orZero
  let mcap := c.marketCap.orZero
  let score := |change24h| * 2 + |change1h| * 3
    + min (volume / 1000000000 * 10) 20 + min (mcap / 1000000000 * 2) 10
  (jsRound (score * 10) : ℚ) / 10

/-- One entry of the detect-momentum tokens array. -/
structure MomentumEntry where
  token : String
  name : String
  change24h : ℚ
  change1h : ℚ
  change7d : ℚ
  price : ℚ
  volume24h : JNum
  marketCap : JNum
  chains : List String
  momentumScore : ℚ
  trend : String
  deriving DecidableEq

/-- The map step of detect-momentum. -/
def mkMomentumEntry (timeframe : String) (c : Coin) : MomentumEntry :=
  { token := jsToUpperCase c.symbol
    name := c.name
    change24h := c.pct24h.orZero
    change1h := c.pct1hInCurrency.orZero
    change7d := c.pct7dInCurrency.orZero
    price := c.currentPrice
    volume24h := c.totalVolume
    marketCap := c.marketCap
    chains := getAvailableChains (jsToUpperCase c.symbol)
    momentumScore := calculateMomentumScore c
    trend := determineTrendJ (selectedChange timeframe c) }

/-- Comparator of the sort step: the JavaScript comparator
(a, b) => b.momentumScore - a.momentumScore orders by descending score. -/
def scoreDesc (a b : MomentumEntry) : Bool := decide (b.momentumScore ≤ a.momentumScore)

/-- tokensWithMomentum of detect-momentum: filter, map, sort descending. -/
def tokensWithMomentum (threshold : ℚ) (timeframe : String)
    (market : List Coin) : List MomentumEntry :=
  ((market.filter (fun c => passesThreshold threshold timeframe c)).map
    (mkMomentumEntry timeframe)).mergeSort scoreDesc

/-- The detect-momentum response (summary keeps the pre-truncation count that
is interpolated into the summary string). -/
structure DetectResult where
  threshold : ℚ
  timeframe : String
  momentumDetected : Bool
  tokens : List MomentumEntry
  summaryCount : ℕ

/-- The detect-momentum handler after a successful fetch. -/
def detectMomentum (threshold : ℚ) (timeframe : String)
    (market : List Coin) : DetectResult :=
  let toks := tokensWithMomentum threshold timeframe market
  { threshold := threshold
    timeframe := timeframe
    momentumDetected := decide (0 < toks.length)
    tokens := toks.take 10
    summaryCount := toks.length }

/-! get-cross-chain-prices. -/

/-- One per-chain quote of the cross-chain price response. -/
structure ChainData where
  symbol : String
  price : ℚ
  slippage : ℚ
  dex : String
  deriving DecidableEq

/-- chainVariations table of getChainInfo: (priceFactor, slippage, dex). -/
def chainVariationsTable (chain : String) : Option (ℚ × ℚ × String) :=
  if chain = "ethereum" then some (1, 1/10, "Uniswap V3")
  else if chain = "bsc" then some (998/1000, 3/10, "PancakeSwap")
  else if chain = "polygon" then some (1001/1000, 4/10, "QuickSwap")
  else if chain = "solana" then some (999/1000, 2/10, "Jupiter")
  else if chain = "arbitrum" then some (10005/10000, 15/100, "Uniswap V3")
  else if chain = "optimism" then some (10002/10000, 18/100, "Uniswap V3")
  else if chain = "avalanche" then some (997/1000, 25/100, "Trader Joe")
  else none

/-- tokenSymbols table of getChainInfo. -/
def crossChainSymbol (token chain : String) : Option String :=
  if token = "BTC" then
    (if chain = "ethereum" then some "wBTC"
     else if chain = "bsc" then some "BTCB"
     else if chain = "polygon" then some "wBTC"
     else if chain = "solana" then some "Portal BTC"
     else if chain = "arbitrum" then some "wBTC"
     else if chain = "optimism" then some "wBTC"
     else if chain = "avalanche" then some "BTC.b" else none)
  else if token = "ETH" then
    (if chain = "ethereum" then some "ETH"
     else if chain = "bsc" then some "ETH"
     else if chain = "polygon" then some "ETH"
     else if chain = "solana" then some "Wrapped ETH"
     else if chain = "arbitrum" then some "ETH"
     else if chain = "optimism" then some "ETH"
     else if chain = "avalanche" then some "WETH.e" else none)
  else if token = "SOL" then
    (if chain = "solana" then some "SOL"
     else if chain = "ethereum" then some "SOL"
     else if chain = "bsc" then some "SOL" else none)
  else none

/-- getChainInfo: the Math.random() draw of the call is passed in as rand
(the handler draws one sample per chain). -/
def getChainInfo (chain token : String) (basePrice volume24h rand : ℚ) :
    Option ChainData :=
  match chainVariationsTable chain, crossChainSymbol token chain with
  | some pf, some sym =>
      let volumeImpact := min (volume24h / 10000000000) (2/1000)
      let randomVariation := (rand - 1/2) * (4/1000)
      let finalPriceFactor := pf.1 + volumeImpact + randomVariation
      some { symbol := sym, price := basePrice * finalPriceFactor,
             slippage := pf.2.1, dex := pf.2.2 }
  | _, _ => none

/-- The crossChainPrices object, keyed by chain in insertion order; chains
without chain data or wrapped symbol are silently skipped.  The i-th loop
iteration consumes the i-th random draw. -/
def crossChainPrices (token : String) (chains : List String)
    (basePrice volume24h : ℚ) (rand : ℕ → ℚ) : List (String × ChainData) :=
  chains.enum.filterMap (fun p =>
    (getChainInfo p.2 token basePrice volume24h (rand p.1)).map (fun d => (p.2, d)))

/-- Math.min over a spread of a nonempty list (the handler only applies it
after the empty-quote-set guard returned a client error). -/
def jsMin : List ℚ → ℚ
  | [] => 0
  | x :: xs => xs.foldl min x

/-- Math.max over a spread of a nonempty list. -/
def jsMax : List ℚ → ℚ
  | [] => 0
  | x :: xs => xs.foldl max x

/-- The prices array Object.values(crossChainPrices).map(data => data.price). -/
def quotePrices (quotes : List (String × ChainData)) : List ℚ :=
  quotes.map (fun q => q.2.price)

/-- The arbitrage block of the response (minSpread is a fixed string). -/
structure ArbitrageInfo where
  spreadPercent : ℚ
  buyChain : Option String
  sellChain : Option String
  profitable : Bool

/-- Arbitrage computation of the handler: spread over min and max quote
price, profitable iff the spread exceeds 1. -/
def arbitrageOf (quotes : List (String × ChainData)) : ArbitrageInfo :=
  let minPrice := jsMin (quotePrices quotes)
  let maxPrice := jsMax (quotePrices quotes)
  let opp := (maxPrice - minPrice) / minPrice * 100
  { spreadPercent := opp
    buyChain := (quotes.find? (fun q => q.2.price = minPrice)).map (fun q => q.1)
    sellChain := (quotes.find? (fun q => q.2.price = maxPrice)).map (fun q => q.1)
    profitable := decide (1 < opp) }

/-! create-momentum-strategy. -/

/-- One per-chain entry of a strategy allocation. -/
structure AllocationData where
  percentage : ℚ
  amount : ℚ
  symbol : String
  reasoning : String
  deriving DecidableEq

/-- Exit strategy template.  The source field of stagedExit is named
partialExit in the route (renamed here, same structure). -/
structure ExitStrategy where
  profitTarget : ℚ
  stopLoss : ℚ
  timeLimit : String
  stagedExit : List (String × String)
  deriving DecidableEq

/-- A per-token strategy template. -/
structure Strategy where
  primary : String
  allocation : List (String × AllocationData)
  exitStrategy : ExitStrategy
  deriving DecidableEq

/-- riskMultipliers lookup with the JavaScript || 0.6 default for an unknown
risk level. -/
def riskMultiplierOf (riskLevel : String) : ℚ :=
  if riskLevel = "low" then 3/10
  else if riskLevel = "medium" then 6/10
  else if riskLevel = "high" then 9/10
  else 6/10

/-- The strategies table of create-momentum-strategy, instantiated at the
computed maxPosition (the amounts are maxPosition times the template share). -/
def strategyTemplate (token : String) (maxPosition : ℚ) : Option Strategy :=
  if token = "BTC" then some
    { primary := "ethereum"
      allocation :=
        [("ethereum", { percentage := 40, amount := maxPosition * (4/10),
                        symbol := "wBTC",
                        reasoning := "Highest liquidity, lowest slippage" }),
         ("bsc", { percentage := 25, amount := maxPosition * (25/100),
                   symbol := "BTCB",
                   reasoning := "Good liquidity, lower fees" }),
         ("polygon", { percentage := 20, amount := maxPosition * (2/10),
                       symbol := "wBTC",
                       reasoning := "Low fees, decent liquidity" }),
         ("solana", { percentage := 15, amount := maxPosition * (15/100),
                      symbol := "Portal BTC",
                      reasoning := "Fast execution, growing ecosystem" })]
      exitStrategy :=
        { profitTarget := 15, stopLoss := 8, timeLimit := "24h",
          stagedExit := [("fifty_percent", "at 8% profit"),
                         ("thirty_percent", "at 12% profit"),
                         ("twenty_percent", "let it ride to target")] } }
  else if token = "ETH" then some
    { primary := "ethereum"
      allocation :=
        [("ethereum", { percentage := 50, amount := maxPosition * (5/10),
                        symbol := "ETH",
                        reasoning := "Native chain, maximum liquidity" }),
         ("arbitrum", { percentage := 25, amount := maxPosition * (25/100),
                        symbol := "ETH",
                        reasoning := "L2 efficiency, high liquidity" }),
         ("bsc", { percentage := 15, amount := maxPosition * (15/100),
                   symbol := "ETH",
                   reasoning := "Cross-chain exposure" }),
         ("polygon", { percentage := 10, amount := maxPosition * (1/10),
                       symbol := "ETH",
                       reasoning := "Low fee option" })]
      exitStrategy :=
        { profitTarget := 12, stopLoss := 6, timeLimit := "18h",
          stagedExit := [("forty_percent_a", "at 6% profit"),
                         ("forty_percent_b", "at 10% profit"),
                         ("twenty_percent", "hold to target")] } }
  else if token = "SOL" then some
    { primary := "solana"
      allocation :=
        [("solana", { percentage := 60, amount := maxPosition * (6/10),
                      symbol := "SOL",
                      reasoning := "Native chain, best price discovery" }),
         ("ethereum", { percentage := 25, amount := maxPosition * (25/100),
                        symbol := "SOL",
                        reasoning := "Cross-chain arbitrage potential" }),
         ("bsc", { percentage := 15, amount := maxPosition * (15/100),
                   symbol := "SOL",
                   reasoning := "Additional exposure, lower fees" })]
      exitStrategy :=
        { profitTarget := 20, stopLoss := 10, timeLimit := "12h",
          stagedExit := [("thirty_percent", "at 10% profit"),
                         ("forty_percent", "at 15% profit"),
                         ("thirty_percent_hold", "hold to target")] } }
  else none

/-- executionOrder: the filtered allocation keys sorted by descending
template percentage (the JavaScript comparator reads the percentages of the
filtered allocation entries). -/
def executionOrderOf (filtered : List (String × AllocationData)) : List String :=
  (filtered.mergeSort (fun a b => decide (b.2.percentage ≤ a.2.percentage))).map
    Prod.fst

/-- The create-momentum-strategy response (static text fields such as
estimatedReturns, timeline, risks and the timestamp are constants of the
route and are not part of the model). -/
structure StrategyResult where
  token : String
  budget : ℚ
  riskLevel : String
  maxPosition : ℚ
  primary : String
  allocation : List (String × AllocationData)
  executionOrder : List String
  exitStrategy : ExitStrategy

/-- The create-momentum-strategy handler: an unsupported token is the client
error branch (HTTP 400 in the route). -/
def createMomentumStrategy (token : String) (budget : ℚ) (riskLevel : String)
    (chains : List String) : Except String StrategyResult :=
  let maxPosition := budget * riskMultiplierOf riskLevel
  match strategyTemplate (jsToUpperCase token) maxPosition with
  | none => .error "Strategy for token not available"
  | some st =>
      let filtered := st.allocation.filter (fun p => chains.contains p.1)
      .ok { token := jsToUpperCase token
            budget := budget
            riskLevel := riskLevel
            maxPosition := maxPosition
            primary := st.primary
            allocation := filtered
            executionOrder := executionOrderOf filtered
            exitStrategy := st.exitStrategy }

/-! execute-momentum-trade. -/

/-- getTokenSymbol of execute-momentum-trade; the fallback returns the
original (non-uppercased) token argument. -/
def getTokenSymbol (token chain : String) : String :=
  let t := jsToUpperCase token
  if t = "BTC" then
    (if chain = "ethereum" then "wBTC"
     else if chain = "bsc" then "BTCB"
     else if chain = "solana" then "Portal BTC"
     else if chain = "polygon" then "wBTC"
     else if chain = "near" then "nBTC" else token)
  else if t = "ETH" then
    (if chain = "ethereum" then "ETH"
     else if chain = "bsc" then "ETH"
     else if chain = "solana" then "Wrapped ETH"
     else if chain = "polygon" then "ETH"
     else if chain = "arbitrum" then "ETH"
     else if chain = "near" then "nETH" else token)
  else if t = "SOL" then
    (if chain = "solana" then "SOL"
     else if chain = "ethereum" then "SOL"
     else if chain = "bsc" then "SOL"
     else if chain = "near" then "nSOL" else token)
  else token

/-- getEstimatedGas lookup with its generic default. -/
def getEstimatedGas (chain : String) : String :=
  if chain = "ethereum" then "0.015 ETH"
  else if chain = "bsc" then "0.003 BNB"
  else if chain = "polygon" then "0.01 MATIC"
  else if chain = "arbitrum" then "0.005 ETH"
  else if chain = "solana" then "0.001 SOL"
  else if chain = "near" then "0.01 NEAR"
  else "0.01 ETH"

/-- getExpectedSlippage lookup with its generic default. -/
def getExpectedSlippage (chain : String) : String :=
  if chain = "ethereum" then "0.1%"
  else if chain = "bsc" then "0.3%"
  else if chain = "polygon" then "0.4%"
  else if chain = "arbitrum" then "0.2%"
  else if chain = "solana" then "0.2%"
  else if chain = "near" then "0.5%"
  else "0.5%"

/-- getBestDex lookup with its generic default. -/
def getBestDex (chain : String) : String :=
  if chain = "ethereum" then "Uniswap V3"
  else if chain = "bsc" then "PancakeSwap"
  else if chain = "polygon" then "QuickSwap"
  else if chain = "arbitrum" then "Uniswap V3"
  else if chain = "solana" then "Jupiter"
  else if chain = "near" then "Ref Finance"
  else "Unknown DEX"

/-- getDexAddress lookup with its zero-address default. -/
def getDexAddress (chain : String) : String :=
  if chain = "ethereum" then "0xE592427A0AEce92De3Edee1F18E0157C05861564"
  else if chain = "bsc" then "0x10ED43C718714eb63d5aA57B78B54704E256024E"
  else if chain = "polygon" then "0xa5E0829CaCEd8fFDD4De3c43696c57F7D7A678ff"
  else if chain = "arbitrum" then "0xE592427A0AEce92De3Edee1F18E0157C05861564"
  else "0x0000000000000000000000000000000000000000"

/-- getChainId lookup with its default of 1. -/
def getChainId (chain : String) : ℕ :=
  if chain = "ethereum" then 1
  else if chain = "bsc" then 56
  else if chain = "polygon" then 137
  else if chain = "arbitrum" then 42161
  else 1

/-- generateSwapData: the mock calldata string template. -/
def generateSwapData (token amount : String) : String :=
  "0x414bf389000000000000000000000000" ++ jsToLowerCase token
    ++ "0000000000000000000000000000000000000000000000000000000000000000000000000000000000000000"
    ++ amount

/-- One entry of executionPlan.trades. -/
structure Trade where
  chain : String
  action : String
  amount : String
  symbol : String
  estimatedGas : String
  expectedSlippage : String
  dex : String
  priority : ℕ
  deriving DecidableEq

/-- Semantics of amounts[index] || "1000": out-of-range indexing yields
undefined and the empty string is also falsy, so both default to "1000". -/
def jsAmountAt (amounts : List String) (i : ℕ) : String :=
  match amounts.get? i with
  | some s => if s = "" then "1000" else s
  | none => "1000"

/-- The chains.map building executionPlan.trades. -/
def buildTrades (token : String) (chains amounts : List String) : List Trade :=
  chains.enum.map (fun p =>
    { chain := p.2
      action := "buy"
      amount := jsAmountAt amounts p.1
      symbol := getTokenSymbol token p.2
      estimatedGas := getEstimatedGas p.2
      expectedSlippage := getExpectedSlippage p.2
      dex := getBestDex p.2
      priority := p.1 + 1 })

/-- Transaction payload stub: NEAR function-call shape for the "near" chain,
generic EVM call shape otherwise. -/
inductive TxPayload where
  | nearTx (receiverId methodName tokenIn tokenOut amountIn gas deposit : String) :
      TxPayload
  | evmTx (toAddr value data : String) (chainId : ℕ) : TxPayload
  deriving DecidableEq

/-- The payload for one (chain, amount) pair. -/
def buildPayload (token chain amount : String) : TxPayload :=
  if chain = "near" then
    .nearTx "dex.near" "swap" "near" (getTokenSymbol token chain) amount
      "100000000000000" amount
  else
    .evmTx (getDexAddress chain) amount (generateSwapData token amount)
      (getChainId chain)

/-- The transactionPayloads array. -/
def buildPayloads (token : String) (chains amounts : List String) : List TxPayload :=
  chains.enum.map (fun p => buildPayload token p.2 (jsAmountAt amounts p.1))

/-- The execute-momentum-trade response (tradeId is a timestamp, and the
timing, monitoring, instructions and warnings blocks are constant text; they
are not part of the model). -/
structure ExecResponse where
  token : String
  status : String
  trades : List Trade
  payloads : List TxPayload

/-- The execute-momentum-trade handler.  The strategy argument is None when
the query parameter is absent; the !strategy guard is the client error branch
(HTTP 400 in the route) and also fires on the empty string. -/
def executeMomentumTrade (strategy : Option String) (token : String)
    (chains amounts : List String) : Except String ExecResponse :=
  match strategy with
  | none => .error "Strategy parameter is required"
  | some s =>
      if s = "" then .error "Strategy parameter is required"
      else .ok { token := jsToUpperCase token
                 status := "ready_for_execution"
                 trades := buildTrades token chains amounts
                 payloads := buildPayloads token chains amounts }

/-! Theorems. -/

/-- C8: the plan operation returns the descriptive client-input error exactly
when the strategy parameter is absent or the empty string (and then no
execution plan is produced); with any non-empty strategy no error is possible,
so this is the only deterministic failure. -/
theorem C8_plan_error_iff (strategy : Option String) (token : String)
    (chains amounts : List String) :
    (executeMomentumTrade strategy token chains amounts =
        Except.error "Strategy parameter is required" ↔
      strategy = none ∨ strategy = some "") ∧
    ((∃ e, executeMomentumTrade strategy token chains amounts = Except.error e) ↔
      strategy = none ∨ strategy = some "") := by
  match strategy with
  | none => simp [executeMomentumTrade]
  | some s =>
    by_cases h : s = "" <;> simp [executeMomentumTrade, h]

/-- C5: with a non-empty strategy the plan operation returns one trade per
requested chain in input order, with priorities exactly 1..n by 1-based input
position, and a position without a matching amount gets the "1000"
placeholder. -/
theorem C5_plan_trades (strategy token : String) (chains amounts : List String)
    (h : strategy ≠ "") :
    ∃ resp,
      executeMomentumTrade (some strategy) token chains amounts = Except.ok resp ∧
      resp.trades.length = chains.length ∧
      resp.trades.map (fun t => t.priority) = List.range' 1 chains.length ∧
      resp.trades.map (fun t => t.chain) = chains ∧
      (∀ i, amounts.length ≤ i → ∀ t, resp.trades.get? i = some t →
        t.amount = "1000") := by
  refine ⟨{ token := jsToUpperCase token, status := "ready_for_execution",
            trades := buildTrades token chains amounts,
            payloads := buildPayloads token chains amounts },
    by simp [executeMomentumTrade, h], ?_, ?_, ?_, ?_⟩
  · simp [buildTrades]
  · simp only [buildTrades, List.map_map]
    have : (fun t => Trade.priority t) ∘
        (fun p : ℕ × String =>
          ({ chain := p.2, action := "buy", amount := jsAmountAt amounts p.1,
             symbol := getTokenSymbol token p.2, estimatedGas := getEstimatedGas p.2,
             expectedSlippage := getExpectedSlippage p.2, dex := getBestDex p.2,
             priority := p.1 + 1 } : Trade)) = (fun p => p.1 + 1) := rfl
    rw [this]
    rw [List.range'_eq_map_range]
    have h2 : (fun p : ℕ × String => p.1 + 1) =
        (fun i => 1 + i) ∘ (Prod.fst (β := String)) := by
      funext p
      simp [Nat.add_comm]
    rw [h2, ← List.map_map, List.enum_map_fst]
  · simp only [buildTrades, List.map_map]
    have : (fun t => Trade.chain t) ∘
        (fun p : ℕ × String =>
          ({ chain := p.2, action := "buy", amount := jsAmountAt amounts p.1,
             symbol := getTokenSymbol token p.2, estimatedGas := getEstimatedGas p.2,
             expectedSlippage := getExpectedSlippage p.2, dex := getBestDex p.2,
             priority := p.1 + 1 } : Trade)) = Prod.snd := rfl
    rw [this, List.enum_map_snd]
  · intro i hi t ht
    simp only [buildTrades, List.get?_eq_getElem?, List.getElem?_map,
      List.getElem?_enum] at ht
    rcases h2 : chains[i]? with _ | c
    · rw [h2] at ht
      exact absurd ht (by simp)
    · rw [h2] at ht
      cases ht
      simp [jsAmountAt, List.get?_eq_getElem?, List.getElem?_eq_none hi]

/-- Witness for C5 at a concrete input: three chains, a single amount. -/
theorem C5_plan_trades_witness :
    ("momentum-1" : String) ≠ "" ∧
    ∃ resp,
      executeMomentumTrade (some "momentum-1") "BTC" ["ethereum", "bsc", "near"]
          ["5"] = Except.ok resp ∧
      resp.trades.length = (["ethereum", "bsc", "near"] : List String).length ∧
      resp.trades.map (fun t => t.priority) =
        List.range' 1 (["ethereum", "bsc", "near"] : List String).length ∧
      resp.trades.map (fun t => t.chain) = ["ethereum", "bsc", "near"] ∧
      (∀ i, (["5"] : List String).length ≤ i → ∀ t, resp.trades.get? i = some t →
        t.amount = "1000") :=
  ⟨by decide,
   C5_plan_trades "momentum-1" "BTC" ["ethereum", "bsc", "near"] ["5"] (by decide)⟩

/-- C10: the analyze timeframes mapping never has a "4h" key, its keys all
lie in the 1h/24h/7d set, and the default request produces at most two
entries. -/
theorem C10_no_4h_entry (tfs : List String) (md : MarketData) :
    ((buildTimeframeAnalysis tfs md).map Prod.fst).contains "4h" = false ∧
    ((buildTimeframeAnalysis tfs md).map Prod.fst).all
      (fun k => k == "1h" || k == "24h" || k == "7d") = true ∧
    (buildTimeframeAnalysis ["1h", "4h", "24h"] md).length ≤ 2 := by
  refine ⟨?_, ?_, ?_⟩
  · unfold buildTimeframeAnalysis
    split_ifs <;> simp_all
  · unfold buildTimeframeAnalysis
    split_ifs <;> simp_all
  · unfold buildTimeframeAnalysis
    split_ifs <;> simp_all

/-- Market data whose 1h change field is absent (undefined), as when the
upstream payload omits the premium in-currency projection. -/
def mdMissing1h : MarketData :=
  { change1h := JNum.undef, change24h := JNum.null, change7d := JNum.null,
    totalVolume := JNum.num 0, marketCap := JNum.num 0 }

/-- C1 counterexample: with the 1h change field absent (not a number), the
requested "1h" timeframe still gets an entry, and that entry is zero-filled,
because the source guard tests !== null and undefined passes it. -/
theorem C1_counterexample :
    "1h" ∈ (buildTimeframeAnalysis ["1h"] mdMissing1h).map Prod.fst ∧
    mdMissing1h.change1h.isNum = false ∧
    buildTimeframeAnalysis ["1h"] mdMissing1h =
      [("1h", { change := 0, volume := 0, trend := "neutral" })] := by
  refine ⟨?_, rfl, ?_⟩ <;>
    norm_num [buildTimeframeAnalysis, mkTimeframeData, mdMissing1h,
      JNum.orZero, determineTrend] <;> decide

/-- C1 amended: a requested timeframe gets an entry iff its source change
field is not explicitly null; a field that is absent (undefined) still
produces an entry, whose change is zero-filled. -/
theorem C1_amended_timeframes (tfs : List String) (md : MarketData) :
    ("1h" ∈ (buildTimeframeAnalysis tfs md).map Prod.fst ↔
      "1h" ∈ tfs ∧ md.change1h ≠ JNum.null) ∧
    ("24h" ∈ (buildTimeframeAnalysis tfs md).map Prod.fst ↔
      "24h" ∈ tfs ∧ md.change24h ≠ JNum.null) ∧
    ("7d" ∈ (buildTimeframeAnalysis tfs md).map Prod.fst ↔
      "7d" ∈ tfs ∧ md.change7d ≠ JNum.null) ∧
    (md.change1h = JNum.undef → "1h" ∈ tfs →
      (buildTimeframeAnalysis tfs md).lookup "1h" =
        some { change := 0, volume := md.totalVolume.orZero, trend := "neutral" }) := by
  refine ⟨?_, ?_, ?_, ?_⟩
  · unfold buildTimeframeAnalysis
    split_ifs <;> simp_all
  · unfold buildTimeframeAnalysis
    split_ifs <;> simp_all
  · unfold buildTimeframeAnalysis
    split_ifs <;> simp_all
  · intro hu hm
    unfold buildTimeframeAnalysis
    rw [if_pos ⟨by simpa using hm, by simp [hu]⟩]
    have : determineTrend 0 = "neutral" := by norm_num [determineTrend]
    simp [mkTimeframeData, hu, JNum.orZero, this]

/-- Witness for the amended C1 at the concrete undefined-field input. -/
theorem C1_amended_witness :
    "1h" ∈ (buildTimeframeAnalysis ["1h"] mdMissing1h).map Prod.fst ∧
    (buildTimeframeAnalysis ["1h"] mdMissing1h).lookup "1h" =
      some { change := 0, volume := mdMissing1h.totalVolume.orZero,
             trend := "neutral" } :=
  ⟨(C1_amended_timeframes ["1h"] mdMissing1h).1.mpr ⟨by decide, by decide⟩,
   (C1_amended_timeframes ["1h"] mdMissing1h).2.2.2 rfl (by decide)⟩

/-- A per-timeframe score lies in [0, 75] when the entry volume is
nonnegative: both terms are nonnegative and capped at 50 and 25. -/
theorem timeframeScore_bounds (d : TimeframeData) (hv : 0 ≤ d.volume) :
    0 ≤ timeframeScore d ∧ timeframeScore d ≤ 75 := by
  unfold timeframeScore
  constructor
  · have h1 : (0:ℚ) ≤ min (|d.change| * 10) 50 :=
      le_min (by positivity) (by norm_num)
    have h2 : (0:ℚ) ≤ min (d.volume / 1000000000 * 5) 25 :=
      le_min (by positivity) (by norm_num)
    linarith
  · have h1 := min_le_right (|d.change| * 10) (50:ℚ)
    have h2 := min_le_right (d.volume / 1000000000 * 5) (25:ℚ)
    linarith

/-- Every timeframe entry carries the defaulted total volume of the source
market data. -/
theorem volume_in_analysis (tfs : List String) (md : MarketData) :
    ∀ p ∈ buildTimeframeAnalysis tfs md, p.2.volume = md.totalVolume.orZero := by
  intro p hp
  unfold buildTimeframeAnalysis at hp
  simp only [List.mem_append] at hp
  rcases hp with (hp | hp) | hp <;>
    (split_ifs at hp <;> simp_all [mkTimeframeData])

/-- C9: with nonnegative source volume the aggregate analyze score lies in
[0, 75]; hence the negative branch is unreachable, the status is never
"fading" and the recommendation is never "sell". -/
theorem C9_aggregate_bounds (tfs : List String) (md : MarketData)
    (hv : 0 ≤ md.totalVolume.orZero) :
    0 ≤ avgScore tfs md ∧ avgScore tfs md ≤ 75 ∧
    momentumStatusOf (avgScore tfs md) ≠ "fading" ∧
    recommendationOf (avgScore tfs md) ≠ "sell" := by
  have hbounds : 0 ≤ avgScore tfs md ∧ avgScore tfs md ≤ 75 := by
    unfold avgScore
    set l := (buildTimeframeAnalysis tfs md).map (fun p => timeframeScore p.2)
      with hl
    by_cases hlen : 0 < l.length
    · rw [if_pos hlen]
      have hmem : ∀ x ∈ l, 0 ≤ x ∧ x ≤ 75 := by
        intro x hx
        rw [hl] at hx
        obtain ⟨p, hp, rfl⟩ := List.mem_map.mp hx
        have hvol := volume_in_analysis tfs md p hp
        exact timeframeScore_bounds p.2 (by rw [hvol]; exact hv)
      have hsum0 : 0 ≤ l.sum := List.sum_nonneg (fun x hx => (hmem x hx).1)
      have hsum75 : l.sum ≤ l.length • (75:ℚ) :=
        List.sum_le_card_nsmul l 75 (fun x hx => (hmem x hx).2)
      have hlenq : (0:ℚ) < l.length := by exact_mod_cast hlen
      constructor
      · positivity
      · rw [div_le_iff₀ hlenq]
        calc l.sum ≤ l.length • (75:ℚ) := hsum75
          _ = (l.length : ℚ) * 75 := by rw [nsmul_eq_mul]
          _ = 75 * l.length := by ring
    · rw [if_neg hlen]
      norm_num
  refine ⟨hbounds.1, hbounds.2, ?_, ?_⟩
  · unfold momentumStatusOf
    split_ifs <;> first | decide | linarith [hbounds.1]
  · unfold recommendationOf
    split_ifs <;> first | decide | linarith [hbounds.1]

/-- Market data with live 1h and 24h changes and a billion of volume. -/
def mdDemo : MarketData :=
  { change1h := JNum.num 2, change24h := JNum.num 5, change7d := JNum.null,
    totalVolume := JNum.num 1000000000, marketCap := JNum.num 0 }

/-- Witness for C9 at a concrete market snapshot. -/
theorem C9_aggregate_bounds_witness :
    0 ≤ avgScore ["1h", "24h"] mdDemo ∧ avgScore ["1h", "24h"] mdDemo ≤ 75 ∧
    momentumStatusOf (avgScore ["1h", "24h"] mdDemo) ≠ "fading" ∧
    recommendationOf (avgScore ["1h", "24h"] mdDemo) ≠ "sell" :=
  C9_aggregate_bounds ["1h", "24h"] mdDemo (by norm_num [JNum.orZero, mdDemo])

/-- The average gain of calculateRSI is nonnegative. -/
theorem avgGainOf_nonneg (prices : List ℚ) : 0 ≤ avgGainOf prices := by
  unfold avgGainOf
  apply div_nonneg _ (by norm_num)
  apply List.sum_nonneg
  intro x hx
  have hx2 := List.mem_of_mem_drop hx
  unfold gainsOf at hx2
  obtain ⟨c, hc, rfl⟩ := List.mem_map.mp hx2
  split_ifs with h
  · exact le_of_lt h
  · exact le_refl 0

/-- The average loss of calculateRSI is nonnegative. -/
theorem avgLossOf_nonneg (prices : List ℚ) : 0 ≤ avgLossOf prices := by
  unfold avgLossOf
  apply div_nonneg _ (by norm_num)
  apply List.sum_nonneg
  intro x hx
  have hx2 := List.mem_of_mem_drop hx
  unfold lossesOf at hx2
  obtain ⟨c, hc, rfl⟩ := List.mem_map.mp hx2
  split_ifs with h
  · exact abs_nonneg c
  · exact le_refl 0

/-- C6: the oscillator always lies in [0, 100]; with fewer than 14 points it
is exactly the neutral 50; with enough points and zero average loss it is
exactly 100. -/
theorem C6_rsi_bounds (prices : List ℚ) :
    (0 ≤ calculateRSI prices ∧ calculateRSI prices ≤ 100) ∧
    (prices.length < 14 → calculateRSI prices = 50) ∧
    (14 ≤ prices.length → avgLossOf prices = 0 → calculateRSI prices = 100) := by
  refine ⟨?_, ?_, ?_⟩
  · unfold calculateRSI
    split_ifs with h1 h2
    · norm_num
    · norm_num
    · dsimp only
      have hlpos : 0 < avgLossOf prices :=
        lt_of_le_of_ne (avgLossOf_nonneg prices) (Ne.symm h2)
      have hrs0 : 0 ≤ avgGainOf prices / avgLossOf prices :=
        div_nonneg (avgGainOf_nonneg prices) (avgLossOf_nonneg prices)
      set rs := avgGainOf prices / avgLossOf prices with hrs
      have h1rs : (1:ℚ) ≤ 1 + rs := by linarith
      have hfrac_pos : 0 < 100 / (1 + rs) := by positivity
      have hfrac_le : 100 / (1 + rs) ≤ 100 := div_le_self (by norm_num) h1rs
      constructor
      · unfold jsRound
        rw [Int.le_floor]
        push_cast
        linarith
      · unfold jsRound
        have hfl : ⌊(100 - 100 / (1 + rs)) + 1/2⌋ < 101 := by
          apply Int.floor_lt.mpr
          push_cast
          linarith
        omega
  · intro h
    simp [calculateRSI, h]
  · intro h hl
    unfold calculateRSI
    rw [if_neg (Nat.not_lt.mpr h), if_pos hl]

/-- A strictly increasing 14-point price series: every delta is a gain, so
the average loss is zero. -/
def pricesUp : List ℚ := [1, 2, 3, 4, 5, 6, 7, 8, 9, 10, 11, 12, 13, 14]

/-- Witness for C6: bounds at the concrete series, the neutral default on an
empty series, and the zero-average-loss maximum on the increasing series. -/
theorem C6_rsi_bounds_witness :
    (0 ≤ calculateRSI pricesUp ∧ calculateRSI pricesUp ≤ 100) ∧
    calculateRSI [] = 50 ∧
    (avgLossOf pricesUp = 0 ∧ calculateRSI pricesUp = 100) := by
  have hl : avgLossOf pricesUp = 0 := by
    norm_num [avgLossOf, lossesOf, jsDeltas, pricesUp]
  exact ⟨(C6_rsi_bounds pricesUp).1, (C6_rsi_bounds []).2.1 (by norm_num),
    hl, (C6_rsi_bounds pricesUp).2.2 (by norm_num [pricesUp]) hl⟩

/-- C7: the detect-momentum score is monotone in the absolute 24h change
when every other coin field is held fixed, including after the rounding to
one decimal. -/
theorem C7_score_monotone (c : Coin) (a b : ℚ) (h : |a| ≤ |b|) :
    calculateMomentumScore { c with pct24h := JNum.num a } ≤
      calculateMomentumScore { c with pct24h := JNum.num b } := by
  unfold calculateMomentumScore jsRound
  simp only [JNum.orZero]
  have hmul : |a| * 2 ≤ |b| * 2 := by linarith
  have hcast : ((⌊(|a| * 2 + |c.pct1hInCurrency.orZero| * 3
      + min (c.totalVolume.orZero / 1000000000 * 10) 20
      + min (c.marketCap.orZero / 1000000000 * 2) 10) * 10 + 1 / 2⌋ : ℤ) : ℚ) ≤
      ((⌊(|b| * 2 + |c.pct1hInCurrency.orZero| * 3
      + min (c.totalVolume.orZero / 1000000000 * 10) 20
      + min (c.marketCap.orZero / 1000000000 * 2) 10) * 10 + 1 / 2⌋ : ℤ) : ℚ) := by
    apply Int.cast_le.mpr
    apply Int.floor_le_floor
    nlinarith [hmul]
  exact (div_le_div_iff_of_pos_right (by norm_num : (0:ℚ) < 10)).mpr hcast

/-- A concrete market row for the C7 witness. -/
def coinDemo : Coin :=
  { symbol := "btc", name := "Bitcoin", pct24h := JNum.num 0,
    pct1hInCurrency := JNum.num 1, pct24hInCurrency := JNum.num 0,
    pct7dInCurrency := JNum.null, currentPrice := 50000,
    totalVolume := JNum.num 2000000000, marketCap := JNum.num 900000000000 }

/-- Witness for C7: a 24h move of -2 scores at least as high as a move of 1. -/
theorem C7_score_monotone_witness :
    |(1:ℚ)| ≤ |(-2:ℚ)| ∧
    calculateMomentumScore { coinDemo with pct24h := JNum.num 1 } ≤
      calculateMomentumScore { coinDemo with pct24h := JNum.num (-2) } :=
  ⟨by norm_num, C7_score_monotone coinDemo 1 (-2) (by norm_num)⟩

/-- Folding min over a list never exceeds the initial accumulator. -/
theorem foldl_min_le_init (xs : List ℚ) : ∀ x : ℚ, xs.foldl min x ≤ x := by
  induction xs with
  | nil => intro x; exact le_refl x
  | cons y ys ih =>
    intro x
    calc (y :: ys).foldl min x = ys.foldl min (min x y) := rfl
      _ ≤ min x y := ih (min x y)
      _ ≤ x := min_le_left x y

/-- Folding max over a list is at least the initial accumulator. -/
theorem init_le_foldl_max (xs : List ℚ) : ∀ x : ℚ, x ≤ xs.foldl max x := by
  induction xs with
  | nil => intro x; exact le_refl x
  | cons y ys ih =>
    intro x
    calc x ≤ max x y := le_max_left x y
      _ ≤ ys.foldl max (max x y) := ih (max x y)
      _ = (y :: ys).foldl max x := rfl

/-- On a nonempty list the spread Math.min is at most the spread Math.max. -/
theorem jsMin_le_jsMax (l : List ℚ) (h : l ≠ []) : jsMin l ≤ jsMax l := by
  match l with
  | [] => exact absurd rfl h
  | x :: xs =>
    calc jsMin (x :: xs) = xs.foldl min x := rfl
      _ ≤ x := foldl_min_le_init xs x
      _ ≤ xs.foldl max x := init_le_foldl_max xs x
      _ = jsMax (x :: xs) := rfl

/-- C3: on every nonempty quote set the cross-chain price operation produces,
the max price dominates the min price, the arbitrage spread is the relative
min-to-max difference in percent, and profitable holds exactly when that
spread exceeds 1. -/
theorem C3_arbitrage (token : String) (chains : List String)
    (basePrice volume24h : ℚ) (rand : ℕ → ℚ)
    (h : crossChainPrices token chains basePrice volume24h rand ≠ []) :
    jsMin (quotePrices (crossChainPrices token chains basePrice volume24h rand)) ≤
      jsMax (quotePrices (crossChainPrices token chains basePrice volume24h rand)) ∧
    (arbitrageOf (crossChainPrices token chains basePrice volume24h rand)).spreadPercent =
      (jsMax (quotePrices (crossChainPrices token chains basePrice volume24h rand)) -
        jsMin (quotePrices (crossChainPrices token chains basePrice volume24h rand))) /
        jsMin (quotePrices (crossChainPrices token chains basePrice volume24h rand)) * 100 ∧
    ((arbitrageOf (crossChainPrices token chains basePrice volume24h rand)).profitable =
        true ↔
      1 < (arbitrageOf
        (crossChainPrices token chains basePrice volume24h rand)).spreadPercent) := by
  refine ⟨?_, rfl, ?_⟩
  · apply jsMin_le_jsMax
    simp [quotePrices, h]
  · simp [arbitrageOf]

/-- Witness for C3: BTC on the ethereum chain with base price 100, zero
volume and a pinned random draw of one half. -/
theorem C3_arbitrage_witness :
    crossChainPrices "BTC" ["ethereum"] 100 0 (fun _ => 1/2) ≠ [] ∧
    (jsMin (quotePrices (crossChainPrices "BTC" ["ethereum"] 100 0 (fun _ => 1/2))) ≤
      jsMax (quotePrices (crossChainPrices "BTC" ["ethereum"] 100 0 (fun _ => 1/2))) ∧
    (arbitrageOf (crossChainPrices "BTC" ["ethereum"] 100 0 (fun _ => 1/2))).spreadPercent =
      (jsMax (quotePrices (crossChainPrices "BTC" ["ethereum"] 100 0 (fun _ => 1/2))) -
        jsMin (quotePrices (crossChainPrices "BTC" ["ethereum"] 100 0 (fun _ => 1/2)))) /
        jsMin (quotePrices (crossChainPrices "BTC" ["ethereum"] 100 0 (fun _ => 1/2))) * 100 ∧
    ((arbitrageOf (crossChainPrices "BTC" ["ethereum"] 100 0 (fun _ => 1/2))).profitable =
        true ↔
      1 < (arbitrageOf
        (crossChainPrices "BTC" ["ethereum"] 100 0 (fun _ => 1/2))).spreadPercent)) := by
  have hne : crossChainPrices "BTC" ["ethereum"] 100 0 (fun _ => 1/2) ≠ [] := by
    norm_num [crossChainPrices, getChainInfo, chainVariationsTable, crossChainSymbol]
    simp
  exact ⟨hne, C3_arbitrage "BTC" ["ethereum"] 100 0 (fun _ => 1/2) hne⟩

/-- Looking a key up in an association list filtered to a requested chain set
yields the original binding when the key is requested, nothing otherwise. -/
theorem lookup_filter_contains {β : Type} (l : List (String × β))
    (cs : List String) (c : String) :
    (l.filter (fun p => cs.contains p.1)).lookup c =
      if cs.contains c then l.lookup c else none := by
  induction l with
  | nil => simp [List.lookup]
  | cons hd tl ih =>
    obtain ⟨k, b⟩ := hd
    by_cases hc : cs.contains k
    · rw [List.filter_cons_of_pos (by simpa using hc)]
      by_cases hck : c = k
      · subst hck
        rw [if_pos hc]
        simp [List.lookup_cons]
      · have hbeq : (c == k) = false := by simpa using hck
        simp only [List.lookup_cons, hbeq]
        exact ih
    · rw [List.filter_cons_of_neg (by simpa using hc)]
      rw [ih]
      by_cases hck : c = k
      · subst hck
        rw [if_neg hc, if_neg hc]
      · have hbeq : (c == k) = false := by simpa using hck
        by_cases h2 : cs.contains c
        · rw [if_pos h2, if_pos h2]
          simp only [List.lookup_cons, hbeq]
        · rw [if_neg h2, if_neg h2]

/-- C4: for a supported token, positive budget and listed risk level, the
strategy builder scales the budget by the 0.3/0.6/0.9 risk multiplier and
keeps exactly the template entries whose chain was requested, each binding
passed through unchanged (no renormalization). -/
theorem C4_strategy_build (token : String) (budget : ℚ) (riskLevel : String)
    (chains : List String) (htok : token ∈ ["BTC", "ETH", "SOL"])
    (_hbudget : 0 < budget) (hr : riskLevel ∈ ["low", "medium", "high"]) :
    ∃ r tmpl,
      createMomentumStrategy token budget riskLevel chains = Except.ok r ∧
      strategyTemplate token r.maxPosition = some tmpl ∧
      r.maxPosition = budget *
        (if riskLevel = "low" then 3/10
         else if riskLevel = "medium" then 6/10 else 9/10) ∧
      r.allocation = tmpl.allocation.filter (fun p => chains.contains p.1) ∧
      (∀ c, r.allocation.lookup c =
        if chains.contains c then tmpl.allocation.lookup c else none) := by
  simp only [List.mem_cons, List.not_mem_nil, or_false] at htok hr
  have hmul : riskMultiplierOf riskLevel =
      (if riskLevel = "low" then 3/10
       else if riskLevel = "medium" then 6/10 else 9/10) := by
    rcases hr with rfl | rfl | rfl <;> rfl
  have hup : jsToUpperCase token = token := by
    rcases htok with rfl | rfl | rfl <;> rfl
  obtain ⟨tmpl, htmpl⟩ : ∃ t,
      strategyTemplate token (budget * riskMultiplierOf riskLevel) = some t := by
    rcases htok with rfl | rfl | rfl <;> exact ⟨_, rfl⟩
  have hcreate : createMomentumStrategy token budget riskLevel chains =
      Except.ok { token := token
                  budget := budget
                  riskLevel := riskLevel
                  maxPosition := budget * riskMultiplierOf riskLevel
                  primary := tmpl.primary
                  allocation := tmpl.allocation.filter (fun p => chains.contains p.1)
                  executionOrder := executionOrderOf
                    (tmpl.allocation.filter (fun p => chains.contains p.1))
                  exitStrategy := tmpl.exitStrategy } := by
    unfold createMomentumStrategy
    rw [hup]
    dsimp only
    rw [htmpl]
  refine ⟨_, tmpl, hcreate, htmpl, ?_, rfl, ?_⟩
  · show budget * riskMultiplierOf riskLevel = _
    rw [hmul]
  · intro c
    exact lookup_filter_contains tmpl.allocation chains c

/-- Witness for C4: the BTC strategy with budget 2000 at low risk filtered
to ethereum and bsc. -/
theorem C4_strategy_build_witness :
    ∃ r tmpl,
      createMomentumStrategy "BTC" 2000 "low" ["ethereum", "bsc"] = Except.ok r ∧
      strategyTemplate "BTC" r.maxPosition = some tmpl ∧
      r.maxPosition = 2000 *
        (if ("low" : String) = "low" then 3/10
         else if ("low" : String) = "medium" then 6/10 else 9/10) ∧
      r.allocation = tmpl.allocation.filter
        (fun p => (["ethereum", "bsc"] : List String).contains p.1) ∧
      (∀ c, r.allocation.lookup c =
        if (["ethereum", "bsc"] : List String).contains c then
          tmpl.allocation.lookup c else none) :=
  C4_strategy_build "BTC" 2000 "low" ["ethereum", "bsc"] (by decide)
    (by norm_num) (by decide)

/-- The descending-score comparator is transitive. -/
theorem scoreDesc_trans (a b c : MomentumEntry) :
    scoreDesc a b = true → scoreDesc b c = true → scoreDesc a c = true := by
  simp only [scoreDesc, decide_eq_true_eq]
  exact fun h1 h2 => le_trans h2 h1

/-- The descending-score comparator is total. -/
theorem scoreDesc_total (a b : MomentumEntry) :
    (scoreDesc a b || scoreDesc b a) = true := by
  simp only [scoreDesc, Bool.or_eq_true, decide_eq_true_eq]
  exact le_total b.momentumScore a.momentumScore

/-- C2: the scan keeps exactly the coins whose selected change passes the
threshold (as a permutation fact about the pre-truncation list), truncates
to at most 10 sorted-descending entries, detects momentum iff some coin was
retained, and counts all retained coins in the summary. -/
theorem C2_scan_shape (threshold : ℚ) (timeframe : String) (market : List Coin) :
    (tokensWithMomentum threshold timeframe market).Perm
      ((market.filter (fun c => passesThreshold threshold timeframe c)).map
        (mkMomentumEntry timeframe)) ∧
    (detectMomentum threshold timeframe market).tokens =
      (tokensWithMomentum threshold timeframe market).take 10 ∧
    (detectMomentum threshold timeframe market).tokens.length ≤ 10 ∧
    (detectMomentum threshold timeframe market).tokens.Pairwise
      (fun a b => b.momentumScore ≤ a.momentumScore) ∧
    ((detectMomentum threshold timeframe market).momentumDetected = true ↔
      market.filter (fun c => passesThreshold threshold timeframe c) ≠ []) ∧
    (detectMomentum threshold timeframe market).summaryCount =
      (market.filter (fun c => passesThreshold threshold timeframe c)).length := by
  refine ⟨List.mergeSort_perm _ _, rfl, ?_, ?_, ?_, ?_⟩
  · show ((tokensWithMomentum threshold timeframe market).take 10).length ≤ 10
    rw [List.length_take]
    exact min_le_left _ _
  · have hs : (tokensWithMomentum threshold timeframe market).Pairwise
        (fun a b => scoreDesc a b = true) :=
      List.sorted_mergeSort scoreDesc_trans scoreDesc_total _
    have htake : ((tokensWithMomentum threshold timeframe market).take 10).Pairwise
        (fun a b => scoreDesc a b = true) :=
      List.Pairwise.sublist (List.take_sublist 10 _) hs
    exact htake.imp (fun h => of_decide_eq_true h)
  · show decide (0 < (tokensWithMomentum threshold timeframe market).length) =
        true ↔ _
    simp [tokensWithMomentum, List.length_mergeSort, List.length_pos]
  · show (tokensWithMomentum threshold timeframe market).length = _
    simp [tokensWithMomentum, List.length_mergeSort]

end Momentum









